import Mathlib

/-!
Shallow embedding of the authentication core of the user-management backend:
the identity-resolution middleware, the auth HTTP endpoints, the SQL user
repository, and the request-scoped database session generator.  Persistence is
modelled as a list of user rows; SQLAlchemy result extraction
(scalar_one_or_none, scalar_one) is modelled faithfully, including its failure
on multiple rows.  External collaborators whose code is not part of this
repository slice (JWT service, password service, domain value objects, auth
use cases) are modelled from the specification and marked as such.
-/

set_option autoImplicit false

namespace AuthCore

/-- Modelled from the spec: the domain value object UserId (domain.value_objects.user_id
is not under src).  The spec describes it as an opaque string/UUID-like id, so it is a
wrapper around a string; the constructor wraps and str() unwraps. -/
structure UserId where
  value : String
deriving DecidableEq, Repr

/-- Modelled from the spec: the domain value object Email (domain.value_objects.email
is not under src).  The spec describes a validated, case-normalized email; the stored
string is the normalized form, so the constructor wraps and str() unwraps. -/
structure Email where
  value : String
deriving DecidableEq, Repr

/-- Modelled from the spec: the domain entity User (domain.entities.user is not under
src).  Fields are exactly those read and written by the repository and middleware:
id, email, username, hashed_password, is_active, created_at, updated_at. -/
structure User where
  id : UserId
  email : Email
  username : String
  hashed_password : String
  is_active : Bool
  created_at : Nat
  updated_at : Nat
deriving DecidableEq, Repr

/-- Modelled from the spec: the persistence row UserModel (infrastructure.database.models
is not under src).  Same columns as the entity, with id and email stored as plain
strings, as witnessed by the repository conversions. -/
structure UserModel where
  id : String
  email : String
  username : String
  hashed_password : String
  is_active : Bool
  created_at : Nat
  updated_at : Nat
deriving DecidableEq, Repr

/-- The database table of user rows, the state behind the AsyncSession. -/
structure Store where
  rows : List UserModel
deriving DecidableEq, Repr

/-- Errors raised inside the core: HTTPException (status code and detail),
ValueError (detail string), IntegrityError (driver message), and other
database-level errors such as MultipleResultsFound and NoResultFound. -/
inductive Err where
  | httpErr (status_code : Nat) (detail : String)
  | valueErr (detail : String)
  | integrityErr (msg : String)
  | dbErr (msg : String)
deriving DecidableEq, Repr

/-- UserRepositoryImpl._model_to_entity: builds the domain entity from a row,
wrapping id and email in their value objects. -/
def model_to_entity (m : UserModel) : User :=
  { id := ⟨m.id⟩
    email := ⟨m.email⟩
    username := m.username
    hashed_password := m.hashed_password
    is_active := m.is_active
    created_at := m.created_at
    updated_at := m.updated_at }

/-- UserRepositoryImpl._entity_to_model: builds a row from the domain entity,
converting id and email to strings. -/
def entity_to_model (u : User) : UserModel :=
  { id := u.id.value
    email := u.email.value
    username := u.username
    hashed_password := u.hashed_password
    is_active := u.is_active
    created_at := u.created_at
    updated_at := u.updated_at }

/-- Actions performed on the database session by the get_session generator. -/
inductive SessAction where
  | commit
  | rollback
  | close
deriving DecidableEq, Repr

/-- infrastructure.database.base.get_session: yields the session to the request
body; on normal completion commits, on an exception rolls back and re-raises,
and in a finally block closes the session.  The request body is modelled by its
outcome (normal value or raised exception); the returned trace records the
session operations performed after the yield, in order. -/
def get_session {E A : Type} (body : Except E A) : Except E A × List SessAction :=
  let afterTry : Except E A × List SessAction :=
    match body with
    | .ok a => (.ok a, [SessAction.commit])
    | .error e => (.error e, [SessAction.rollback])
  (afterTry.1, afterTry.2 ++ [SessAction.close])

/-- application.dto.user_dto.UserResponseDTO as constructed by the /me endpoint:
exactly id, email, username, is_active, created_at, updated_at. -/
structure UserResponseDTO where
  id : String
  email : String
  username : String
  is_active : Bool
  created_at : Nat
  updated_at : Nat
deriving DecidableEq, Repr

/-- presentation.api.auth_router.get_current_user_info, the /me endpoint body:
builds the response DTO from the resolved current user. -/
def get_current_user_info (current_user : User) : UserResponseDTO :=
  { id := current_user.id.value
    email := current_user.email.value
    username := current_user.username
    is_active := current_user.is_active
    created_at := current_user.created_at
    updated_at := current_user.updated_at }

/-- SQLAlchemy Result.scalar_one_or_none over the rows produced by a SELECT:
none when the query matched no row, the row when it matched exactly one, and
the MultipleResultsFound error when it matched more than one. -/
def scalarOneOrNone {α : Type} (l : List α) : Except Err (Option α) :=
  match l with
  | [] => .ok none
  | [m] => .ok (some m)
  | _ => .error (.dbErr "MultipleResultsFound")

/-- SQLAlchemy Result.scalar_one: the row when the query matched exactly one,
NoResultFound on zero rows, MultipleResultsFound on several. -/
def scalarOne {α : Type} (l : List α) : Except Err α :=
  match l with
  | [] => .error (.dbErr "NoResultFound")
  | [m] => .ok m
  | _ => .error (.dbErr "MultipleResultsFound")

/-- UserRepositoryImpl.get_by_id: SELECT the rows whose id column equals
str(user_id), take scalar_one_or_none, and convert to the entity if present. -/
def get_by_id (s : Store) (user_id : UserId) : Except Err (Option User) :=
  (scalarOneOrNone (s.rows.filter (fun m => m.id == user_id.value))).map
    (fun o => o.map model_to_entity)

/-- UserRepositoryImpl.get_by_email: SELECT the rows whose email column equals
str(email), take scalar_one_or_none, and convert to the entity if present. -/
def get_by_email (s : Store) (email : Email) : Except Err (Option User) :=
  (scalarOneOrNone (s.rows.filter (fun m => m.email == email.value))).map
    (fun o => o.map model_to_entity)

/-- UserRepositoryImpl.get_by_username: SELECT the rows whose username column
equals the argument, take scalar_one_or_none, and convert if present. -/
def get_by_username (s : Store) (username : String) : Except Err (Option User) :=
  (scalarOneOrNone (s.rows.filter (fun m => m.username == username))).map
    (fun o => o.map model_to_entity)

/-- UserRepositoryImpl.exists_by_email: SELECT the id column of the rows whose
email equals str(email); true when scalar_one_or_none is not None. -/
def exists_by_email (s : Store) (email : Email) : Except Err Bool :=
  (scalarOneOrNone ((s.rows.filter (fun m => m.email == email.value)).map
    (fun m => m.id))).map (fun o => o.isSome)

/-- UserRepositoryImpl.exists_by_username: SELECT the id column of the rows
whose username equals the argument; true when scalar_one_or_none is not None. -/
def exists_by_username (s : Store) (username : String) : Except Err Bool :=
  (scalarOneOrNone ((s.rows.filter (fun m => m.username == username)).map
    (fun m => m.id))).map (fun o => o.isSome)

/-- The effect of the UPDATE statement of UserRepositoryImpl.update on one row:
a row whose id equals str(user.id) gets the email, username, hashed_password,
is_active and updated_at values of the entity; any other row is untouched. -/
def updateRow (user : User) (m : UserModel) : UserModel :=
  if m.id == user.id.value then
    { m with
      email := user.email.value
      username := user.username
      hashed_password := user.hashed_password
      is_active := user.is_active
      updated_at := user.updated_at }
  else m

/-- UserRepositoryImpl.update: executes the UPDATE ... WHERE id = str(user.id)
with RETURNING, then scalar_one over the returned rows converted to an entity.
Returns the new table state together with the call result. -/
def update (s : Store) (user : User) : Store × Except Err User :=
  let rows := s.rows.map (updateRow user)
  (⟨rows⟩,
    (scalarOne (rows.filter (fun m => m.id == user.id.value))).map model_to_entity)

/-- The store-level uniqueness invariant on the id column. -/
abbrev uniqueIds (s : Store) : Prop := (s.rows.map (fun m => m.id)).Nodup

/-- The store-level uniqueness invariant on the email column. -/
abbrev uniqueEmails (s : Store) : Prop := (s.rows.map (fun m => m.email)).Nodup

/-- The store-level uniqueness invariant on the username column. -/
abbrev uniqueUsernames (s : Store) : Prop := (s.rows.map (fun m => m.username)).Nodup

/-- When no row satisfies the key predicate, the SELECT filter is empty. -/
theorem filter_eq_nil_of_none {α : Type} (p : α → Bool) (l : List α)
    (h : ∀ m ∈ l, p m = false) : l.filter p = [] := by
  rw [List.filter_eq_nil_iff]
  intro x hx
  simp [h x hx]

/-- When the key column is duplicate-free and one row matches the key, the
SELECT filter is exactly that row. -/
theorem filter_eq_single_of_mem {α : Type} (key : α → String) (k : String)
    (l : List α) (hmod : (l.map key).Nodup) (m : α) (hm : m ∈ l)
    (hk : key m = k) : l.filter (fun x => key x == k) = [m] := by
  induction l with
  | nil => cases hm
  | cons a t ih =>
    rw [List.map_cons, List.nodup_cons] at hmod
    rcases List.mem_cons.mp hm with hma | h
    · subst hma
      have hrest : t.filter (fun x => key x == k) = [] := by
        apply filter_eq_nil_of_none
        intro x hx
        by_contra hcon
        have hx2 : key x = k := by
          have : (key x == k) = true := by
            cases hb : (key x == k)
            · exact absurd hb hcon
            · rfl
          simpa using this
        exact hmod.1 (List.mem_map.mpr ⟨x, hx, hx2.trans hk.symm⟩)
      simp [List.filter_cons, hk, hrest]
    · have hne : (key a == k) = false := by
        cases hb : (key a == k)
        · rfl
        · exfalso
          have hak : key a = k := by simpa using hb
          exact hmod.1 (List.mem_map.mpr ⟨m, h, hk.trans hak.symm⟩)
      simp only [List.filter_cons, hne, Bool.false_eq_true, if_false]
      exact ih hmod.2 h

/-- scalar_one_or_none commutes with mapping a function over the selected rows. -/
theorem scalarOneOrNone_map {α β : Type} (f : α → β) (l : List α) :
    scalarOneOrNone (l.map f) = (scalarOneOrNone l).map (fun o => o.map f) := by
  rcases l with _ | ⟨a, _ | ⟨b, t⟩⟩ <;> rfl

/-- For any projection of the selected rows, taking scalar_one_or_none of the
projected rows and asking isSome agrees with projecting after extraction. -/
theorem scalarOneOrNone_isSome_map {α β γ : Type} (f : α → β) (g : α → γ)
    (l : List α) :
    (scalarOneOrNone (l.map f)).map (fun o => o.isSome) =
      ((scalarOneOrNone l).map (fun o => o.map g)).map (fun o => o.isSome) := by
  rcases l with _ | ⟨a, _ | ⟨b, t⟩⟩ <;> rfl

/-- Sample row used to instantiate theorems with hypotheses. -/
def row1 : UserModel :=
  { id := "u1", email := "a@x.com", username := "alice",
    hashed_password := "hash1", is_active := true, created_at := 10, updated_at := 20 }

/-- Second sample row, with a distinct id, email and username. -/
def row2 : UserModel :=
  { id := "u2", email := "b@x.com", username := "bob",
    hashed_password := "hash2", is_active := false, created_at := 11, updated_at := 21 }

/-- Sample two-row store satisfying the uniqueness invariants. -/
def sampleStore : Store := ⟨[row1, row2]⟩

/-- Sample entity corresponding to the first sample row. -/
def user1 : User := model_to_entity row1

/-- C8: converting a User entity to a persistence model and back yields the same
entity: id and email round-trip through their string conversions, and the other
fields are copied unchanged. -/
theorem c8_entity_model_roundtrip (u : User) :
    model_to_entity (entity_to_model u) = u := rfl

/-- C9: for every request body outcome, get_session commits exactly when the
body completes normally, rolls back and re-raises the same exception when the
body raises, and closes the session in both cases; a failed body is never
committed. -/
theorem c9_get_session_commit_rollback_close {E A : Type} (body : Except E A) :
    (get_session body).2.contains SessAction.close = true ∧
    (match body with
      | .ok a => get_session body = (.ok a, [SessAction.commit, SessAction.close])
      | .error e => get_session body = (.error e, [SessAction.rollback, SessAction.close])) := by
  cases body <;> exact ⟨rfl, rfl⟩

/-- C7: the /me response contains exactly id, email, username, is_active,
created_at and updated_at, and is independent of the stored password hash: two
users differing only in hashed_password produce identical responses. -/
theorem c7_me_response_no_hash (u : User) (h : String) :
    get_current_user_info { u with hashed_password := h } = get_current_user_info u ∧
    get_current_user_info u =
      { id := u.id.value
        email := u.email.value
        username := u.username
        is_active := u.is_active
        created_at := u.created_at
        updated_at := u.updated_at } := ⟨rfl, rfl⟩

/-- C5: under the store-level uniqueness invariants, exists_by_email agrees with
get_by_email returning a user (and likewise for username), and each finder
(get_by_id, get_by_email, get_by_username) returns exactly the stored record
whose key matches its argument, or None when no record matches. -/
theorem c5_finders_exists_coherent (s : Store) (e : Email) (n : String)
    (uid : UserId) (hi : uniqueIds s) (he : uniqueEmails s)
    (hn : uniqueUsernames s) :
    exists_by_email s e = (get_by_email s e).map (fun o => o.isSome) ∧
    exists_by_username s n = (get_by_username s n).map (fun o => o.isSome) ∧
    ((∀ m ∈ s.rows, m.id ≠ uid.value) → get_by_id s uid = .ok none) ∧
    (∀ m ∈ s.rows, m.id = uid.value →
      get_by_id s uid = .ok (some (model_to_entity m))) ∧
    ((∀ m ∈ s.rows, m.email ≠ e.value) → get_by_email s e = .ok none) ∧
    (∀ m ∈ s.rows, m.email = e.value →
      get_by_email s e = .ok (some (model_to_entity m))) ∧
    ((∀ m ∈ s.rows, m.username ≠ n) → get_by_username s n = .ok none) ∧
    (∀ m ∈ s.rows, m.username = n →
      get_by_username s n = .ok (some (model_to_entity m))) := by
  refine ⟨?_, ?_, ?_, ?_, ?_, ?_, ?_, ?_⟩
  · exact scalarOneOrNone_isSome_map (fun m => m.id) model_to_entity _
  · exact scalarOneOrNone_isSome_map (fun m => m.id) model_to_entity _
  · intro h
    have hf : s.rows.filter (fun m => m.id == uid.value) = [] :=
      filter_eq_nil_of_none _ _ (fun m hm => by simp [h m hm])
    simp [get_by_id, hf, scalarOneOrNone, Except.map]
  · intro m hm hk
    have hf : s.rows.filter (fun m => m.id == uid.value) = [m] :=
      filter_eq_single_of_mem (fun m => m.id) uid.value s.rows hi m hm hk
    simp [get_by_id, hf, scalarOneOrNone, Except.map]
  · intro h
    have hf : s.rows.filter (fun m => m.email == e.value) = [] :=
      filter_eq_nil_of_none _ _ (fun m hm => by simp [h m hm])
    simp [get_by_email, hf, scalarOneOrNone, Except.map]
  · intro m hm hk
    have hf : s.rows.filter (fun m => m.email == e.value) = [m] :=
      filter_eq_single_of_mem (fun m => m.email) e.value s.rows he m hm hk
    simp [get_by_email, hf, scalarOneOrNone, Except.map]
  · intro h
    have hf : s.rows.filter (fun m => m.username == n) = [] :=
      filter_eq_nil_of_none _ _ (fun m hm => by simp [h m hm])
    simp [get_by_username, hf, scalarOneOrNone, Except.map]
  · intro m hm hk
    have hf : s.rows.filter (fun m => m.username == n) = [m] :=
      filter_eq_single_of_mem (fun m => m.username) n s.rows hn m hm hk
    simp [get_by_username, hf, scalarOneOrNone, Except.map]

/-- Witness for C5 on the sample store: the email finder and existence check
agree, and get_by_id resolves the stored row with the matching id. -/
theorem c5_finders_exists_coherent_witness :
    exists_by_email sampleStore ⟨"a@x.com"⟩ =
      (get_by_email sampleStore ⟨"a@x.com"⟩).map (fun o => o.isSome) ∧
    get_by_id sampleStore ⟨"u1"⟩ = .ok (some (model_to_entity row1)) := by
  have h := c5_finders_exists_coherent sampleStore ⟨"a@x.com"⟩ "alice" ⟨"u1"⟩
    (by decide) (by decide) (by decide)
  exact ⟨h.1, h.2.2.2.1 row1 (by decide) rfl⟩

/-- C6: update rewrites the table by applying updateRow to every row; the
updated row keeps its id and created_at, rows whose id differs from the
entity's id are unchanged, and the matching row receives exactly the email,
username, hashed_password, is_active and updated_at values of the entity. -/
theorem c6_update_frame (s : Store) (u : User) (m : UserModel) :
    (update s u).1.rows = s.rows.map (updateRow u) ∧
    (updateRow u m).id = m.id ∧
    (updateRow u m).created_at = m.created_at ∧
    (m.id ≠ u.id.value → updateRow u m = m) ∧
    (m.id = u.id.value →
      updateRow u m =
        { m with
          email := u.email.value
          username := u.username
          hashed_password := u.hashed_password
          is_active := u.is_active
          updated_at := u.updated_at }) := by
  refine ⟨rfl, ?_, ?_, ?_, ?_⟩
  · unfold updateRow; split <;> rfl
  · unfold updateRow; split <;> rfl
  · intro h; simp [updateRow, h]
  · intro h; simp [updateRow, h]

/-- Witness for C6 on the sample rows: updating with the entity of row1 leaves
row2 unchanged and rewrites exactly the five columns of row1. -/
theorem c6_update_frame_witness :
    updateRow user1 row2 = row2 ∧
    updateRow user1 row1 =
      { row1 with
        email := user1.email.value
        username := user1.username
        hashed_password := user1.hashed_password
        is_active := user1.is_active
        updated_at := user1.updated_at } := by
  exact ⟨(c6_update_frame sampleStore user1 row2).2.2.2.1 (by decide),
    (c6_update_frame sampleStore user1 row1).2.2.2.2 (by decide)⟩

/-- Modelled from the spec: jwt_service.get_user_id_from_token (infrastructure.auth
is not under src).  The token service verifies the signed token and extracts the
subject user id; on a malformed, badly signed or expired token no valid user id is
produced.  It is modelled throughout as an abstract function from the presented
token to an optional user id, quantified over in the middleware theorems.  This
sample instance accepts one token. -/
def sampleTok : String → Option String :=
  fun t => if t = "tok1" then some "u1" else none

/-- The try block of get_current_user_optional: token extraction, user lookup and
active check, with early None results; database errors escape to the handler. -/
def optionalTryBlock (s : Store) (tok : String → Option String) (c : String) :
    Except Err (Option User) :=
  match tok c with
  | none => .ok none
  | some uid =>
    match get_by_id s ⟨uid⟩ with
    | .error e => .error e
    | .ok none => .ok none
    | .ok (some u) => if u.is_active then .ok (some u) else .ok none

/-- presentation.middleware.auth.get_current_user_optional: returns None when no
credentials are presented; otherwise runs the try block and suppresses every
exception into None. -/
def get_current_user_optional (s : Store) (tok : String → Option String)
    (credentials : Option String) : Option User :=
  match credentials with
  | none => none
  | some c =>
    match optionalTryBlock s tok c with
    | .ok r => r
    | .error _ => none

/-- presentation.middleware.auth.get_current_user: raises HTTP 401 when no
credentials are presented, when the token yields no user id, or when the user is
not found or inactive; otherwise returns the resolved user. -/
def get_current_user (s : Store) (tok : String → Option String)
    (credentials : Option String) : Except Err User :=
  match credentials with
  | none => .error (.httpErr 401 "Not authenticated")
  | some c =>
    match tok c with
    | none => .error (.httpErr 401 "Invalid authentication credentials")
    | some uid =>
      match get_by_id s ⟨uid⟩ with
      | .error e => .error e
      | .ok none => .error (.httpErr 401 "User not found or inactive")
      | .ok (some u) =>
        if u.is_active then .ok u
        else .error (.httpErr 401 "User not found or inactive")

/-- presentation.middleware.auth.get_current_active_user: raises HTTP 400 when
the already-resolved current user is inactive, otherwise passes it through. -/
def get_current_active_user (current_user : User) : Except Err User :=
  if current_user.is_active then .ok current_user
  else .error (.httpErr 400 "Inactive user")

/-- The composed dependency chain: resolve the current user, then apply the
active-user check. -/
def get_current_active_user_dep (s : Store) (tok : String → Option String)
    (credentials : Option String) : Except Err User :=
  match get_current_user s tok credentials with
  | .error e => .error e
  | .ok u => get_current_active_user u

/-- The exact condition under which the required resolver rejects the request:
credentials absent, token verification yielding no user id, or the resolved
user missing or inactive. -/
def requiredAuthFailure (s : Store) (tok : String → Option String)
    (credentials : Option String) : Prop :=
  credentials = none ∨
  ∃ c, credentials = some c ∧
    (tok c = none ∨
     ∃ uid, tok c = some uid ∧
       (get_by_id s ⟨uid⟩ = .ok none ∨
        ∃ u, get_by_id s ⟨uid⟩ = .ok (some u) ∧ u.is_active = false))

/-- With duplicate-free ids the repository lookup never fails. -/
theorem get_by_id_ok_of_uniqueIds (s : Store) (hi : uniqueIds s) (uid : UserId) :
    ∃ o, get_by_id s uid = .ok o := by
  by_cases h : ∃ m ∈ s.rows, m.id = uid.value
  · obtain ⟨m, hm, hk⟩ := h
    exact ⟨some (model_to_entity m), by
      have hf := filter_eq_single_of_mem (fun m => m.id) uid.value s.rows hi m hm hk
      simp [get_by_id, hf, scalarOneOrNone, Except.map]⟩
  · push_neg at h
    exact ⟨none, by
      have hf := filter_eq_nil_of_none (fun m => m.id == uid.value) s.rows
        (fun m hm => by simp [h m hm])
      simp [get_by_id, hf, scalarOneOrNone, Except.map]⟩

/-- C1: the optional resolver is a total function of the request: it returns
the resolved active user exactly on full success, and the absent result None in
every other case, all failures suppressed. -/
theorem c1_optional_resolver_total (s : Store) (tok : String → Option String)
    (credentials : Option String) :
    get_current_user_optional s tok credentials = none ∨
    ∃ c uid u, credentials = some c ∧ tok c = some uid ∧
      get_by_id s ⟨uid⟩ = .ok (some u) ∧ u.is_active = true ∧
      get_current_user_optional s tok credentials = some u := by
  cases credentials with
  | none => exact Or.inl rfl
  | some c =>
    cases htok : tok c with
    | none =>
      exact Or.inl (by simp [get_current_user_optional, optionalTryBlock, htok])
    | some uid =>
      cases hget : get_by_id s ⟨uid⟩ with
      | error e =>
        exact Or.inl (by simp [get_current_user_optional, optionalTryBlock, htok, hget])
      | ok o =>
        cases o with
        | none =>
          exact Or.inl (by simp [get_current_user_optional, optionalTryBlock, htok, hget])
        | some u =>
          cases hact : u.is_active with
          | false =>
            exact Or.inl
              (by simp [get_current_user_optional, optionalTryBlock, htok, hget, hact])
          | true =>
            exact Or.inr ⟨c, uid, u, rfl, htok, hget, hact,
              by simp [get_current_user_optional, optionalTryBlock, htok, hget, hact]⟩

/-- C3: with duplicate-free ids, the required resolver fails with an HTTP 401
error exactly when the credentials are absent, the token verifies to no user
id, or the resolved user is missing or inactive; in every other case it returns
the resolved user. -/
theorem c3_required_resolver_401 (s : Store) (tok : String → Option String)
    (credentials : Option String) (hi : uniqueIds s) :
    match get_current_user s tok credentials with
    | .error e => (∃ d, e = .httpErr 401 d) ∧ requiredAuthFailure s tok credentials
    | .ok u => ¬ requiredAuthFailure s tok credentials ∧ u.is_active = true ∧
        ∃ c uid, credentials = some c ∧ tok c = some uid ∧
          get_by_id s ⟨uid⟩ = .ok (some u) := by
  cases credentials with
  | none =>
    simp only [get_current_user]
    exact ⟨⟨"Not authenticated", rfl⟩, Or.inl rfl⟩
  | some c =>
    cases htok : tok c with
    | none =>
      simp only [get_current_user, htok]
      exact ⟨⟨"Invalid authentication credentials", rfl⟩,
        Or.inr ⟨c, rfl, Or.inl htok⟩⟩
    | some uid =>
      obtain ⟨o, hget⟩ := get_by_id_ok_of_uniqueIds s hi ⟨uid⟩
      cases o with
      | none =>
        simp only [get_current_user, htok, hget]
        exact ⟨⟨"User not found or inactive", rfl⟩,
          Or.inr ⟨c, rfl, Or.inr ⟨uid, htok, Or.inl hget⟩⟩⟩
      | some u =>
        cases hact : u.is_active with
        | false =>
          simp only [get_current_user, htok, hget, hact, Bool.false_eq_true,
            if_false]
          exact ⟨⟨"User not found or inactive", rfl⟩,
            Or.inr ⟨c, rfl, Or.inr ⟨uid, htok, Or.inr ⟨u, hget, hact⟩⟩⟩⟩
        | true =>
          simp only [get_current_user, htok, hget, hact, if_true]
          refine ⟨?_, trivial, c, uid, rfl, htok, hget⟩
          rintro (h | ⟨c2, hc2, h2⟩)
          · exact Option.noConfusion h
          · obtain rfl : c = c2 := (Option.some.injEq c c2).mp hc2
            rcases h2 with h2 | ⟨uid2, huid2, h3⟩
            · rw [htok] at h2; exact Option.noConfusion h2
            · rw [htok] at huid2
              obtain rfl : uid = uid2 := (Option.some.injEq uid uid2).mp huid2
              rcases h3 with h3 | ⟨u2, hu2, hact2⟩
              · rw [hget] at h3
                simp at h3
              · rw [hget] at hu2
                obtain rfl : u = u2 := by simpa using hu2
                rw [hact] at hact2
                exact Bool.noConfusion hact2

/-- Witness for C3: on the sample store with the sample token service and a
valid bearer token, the required resolver succeeds with the active stored user. -/
theorem c3_required_resolver_401_witness :
    match get_current_user sampleStore sampleTok (some "tok1") with
    | .error e =>
        (∃ d, e = .httpErr 401 d) ∧
          requiredAuthFailure sampleStore sampleTok (some "tok1")
    | .ok u =>
        ¬ requiredAuthFailure sampleStore sampleTok (some "tok1") ∧
          u.is_active = true ∧
          ∃ c uid, (some "tok1" : Option String) = some c ∧ sampleTok c = some uid ∧
            get_by_id sampleStore ⟨uid⟩ = .ok (some u) :=
  c3_required_resolver_401 sampleStore sampleTok (some "tok1") (by decide)

/-- C10: every user the required resolver returns is active, so the inactive
branch of get_current_active_user is unreachable and the composed dependency is
exactly the required resolver. -/
theorem c10_active_check_unreachable (s : Store) (tok : String → Option String)
    (credentials : Option String) :
    (∀ u, get_current_user s tok credentials = .ok u → u.is_active = true) ∧
    get_current_active_user_dep s tok credentials =
      get_current_user s tok credentials := by
  have hact : ∀ u, get_current_user s tok credentials = .ok u →
      u.is_active = true := by
    intro u h
    cases credentials with
    | none => simp [get_current_user] at h
    | some c =>
      cases htok : tok c with
      | none => simp [get_current_user, htok] at h
      | some uid =>
        cases hget : get_by_id s ⟨uid⟩ with
        | error e => simp [get_current_user, htok, hget] at h
        | ok o =>
          cases o with
          | none => simp [get_current_user, htok, hget] at h
          | some v =>
            cases hv : v.is_active with
            | false => simp [get_current_user, htok, hget, hv] at h
            | true =>
              simp [get_current_user, htok, hget, hv] at h
              rw [← h]
              exact hv
  refine ⟨hact, ?_⟩
  cases hres : get_current_user s tok credentials with
  | error e => simp [get_current_active_user_dep, hres]
  | ok u =>
    have := hact u hres
    simp [get_current_active_user_dep, hres, get_current_active_user, this]

/-- Witness for C10: on the sample store the resolved user is active and the
composed dependency agrees with the required resolver. -/
theorem c10_active_check_unreachable_witness :
    user1.is_active = true ∧
    get_current_active_user_dep sampleStore sampleTok (some "tok1") =
      get_current_user sampleStore sampleTok (some "tok1") :=
  ⟨(c10_active_check_unreachable sampleStore sampleTok (some "tok1")).1 user1
      rfl,
    (c10_active_check_unreachable sampleStore sampleTok (some "tok1")).2⟩

/-- Boolean test that the first character list is an initial segment of the
second, used to model Python substring containment. -/
def leadsWith : List Char → List Char → Bool
  | [], _ => true
  | _ :: _, [] => false
  | a :: as, b :: bs => a == b && leadsWith as bs

/-- Boolean test that the first character list occurs contiguously somewhere in
the second. -/
def hasSub (sub : List Char) : List Char → Bool
  | [] => leadsWith sub []
  | c :: rest => leadsWith sub (c :: rest) || hasSub sub rest

/-- Python substring containment, sub in s, on the underlying characters. -/
def strContains (s sub : String) : Bool := hasSub sub.toList s.toList

/-- An HTTPException surfaced to the HTTP caller: status code and detail. -/
structure HTTPError where
  status_code : Nat
  detail : String
deriving DecidableEq, Repr

/-- UserRepositoryImpl.create: adds the entity row and flushes; the store's
verdict on the flush is an explicit input (success, or IntegrityError with the
driver message).  On success the row is persisted and the refreshed entity
returned.  On IntegrityError, a message mentioning email raises ValueError
naming the email, else one mentioning username raises ValueError naming the
username, and otherwise the raw IntegrityError is re-raised, leaving the row
unpersisted. -/
def create (s : Store) (u : User) (flush : Except String Unit) :
    Store × Except Err User :=
  match flush with
  | .ok _ =>
    (⟨s.rows ++ [entity_to_model u]⟩, .ok (model_to_entity (entity_to_model u)))
  | .error msg =>
    if strContains msg "email" then
      (s, .error (.valueErr ("User with email " ++ u.email.value ++
        " already exists")))
    else if strContains msg "username" then
      (s, .error (.valueErr ("User with username " ++ u.username ++
        " already exists")))
    else (s, .error (.integrityErr msg))

/-- Modelled from the spec: AuthUseCases.register_user (application layer, not
under src).  Per the spec it checks email then username uniqueness against the
store, failing with a duplicate-user error naming the field, then hashes the
secret and persists via the repository create; hashing and token issuance do
not affect which error is surfaced and are abstracted away.  Exceptions raised
by the store or the repository propagate to the router. -/
def register_user (s : Store) (u : User) (flush : Except String Unit) :
    Store × Except Err User :=
  match exists_by_email s u.email with
  | .error e => (s, .error e)
  | .ok true =>
    (s, .error (.valueErr ("User with email " ++ u.email.value ++
      " already exists")))
  | .ok false =>
    match exists_by_username s u.username with
    | .error e => (s, .error e)
    | .ok true =>
      (s, .error (.valueErr ("User with username " ++ u.username ++
        " already exists")))
    | .ok false => create s u flush

/-- presentation.api.auth_router.sign_up: runs register_user; a ValueError is
surfaced as HTTP 400 with its detail, any other exception as the generic HTTP
500 registration error. -/
def sign_up (s : Store) (u : User) (flush : Except String Unit) :
    Except HTTPError User :=
  match (register_user s u flush).2 with
  | .ok r => .ok r
  | .error (.valueErr m) => .error ⟨400, m⟩
  | .error _ => .error ⟨500, "Internal server error during registration"⟩

/-- A uniqueness-violation message from the store that names the violated
constraint rather than a column, so it mentions neither email nor username. -/
def raceMsg : String := "duplicate key value violates unique constraint uq_users_1"

/-- C2 counterexample: a registration on an empty store (both pre-checks pass)
whose write-time uniqueness violation carries a constraint-named message is
surfaced as the generic HTTP 500 error, not a field-bearing duplicate-user
error: the repository re-raises the raw IntegrityError and the router maps it
to the generic failure. -/
theorem c2_counterexample :
    strContains raceMsg "email" = false ∧
    strContains raceMsg "username" = false ∧
    sign_up ⟨[]⟩ user1 (.error raceMsg) =
      .error ⟨500, "Internal server error during registration"⟩ := by
  refine ⟨by decide, by decide, rfl⟩

/-- C2 amended: when the write-time IntegrityError message mentions email the
caller receives HTTP 400 naming the email (this branch wins even over a
username collision), when it mentions username but not email the caller
receives HTTP 400 naming the username, and any other store exception is
re-raised raw by the repository and only caught at the router as the generic
HTTP 500 — so no raw exception reaches the HTTP caller, but such a violation is
not mapped into the domain taxonomy. -/
theorem c2_amended_translation (s : Store) (u : User) (msg : String)
    (hpre1 : exists_by_email s u.email = .ok false)
    (hpre2 : exists_by_username s u.username = .ok false) :
    (strContains msg "email" = true →
      sign_up s u (.error msg) =
        .error ⟨400, "User with email " ++ u.email.value ++ " already exists"⟩) ∧
    (strContains msg "email" = false → strContains msg "username" = true →
      sign_up s u (.error msg) =
        .error ⟨400, "User with username " ++ u.username ++ " already exists"⟩) ∧
    (strContains msg "email" = false → strContains msg "username" = false →
      sign_up s u (.error msg) =
        .error ⟨500, "Internal server error during registration"⟩) := by
  refine ⟨?_, ?_, ?_⟩
  · intro h1
    simp [sign_up, register_user, hpre1, hpre2, create, h1]
  · intro h1 h2
    simp [sign_up, register_user, hpre1, hpre2, create, h1, h2]
  · intro h1 h2
    simp [sign_up, register_user, hpre1, hpre2, create, h1, h2]

/-- Witness for the amended C2: on an empty store, a write-time violation whose
message names the email constraint surfaces as HTTP 400 naming the email. -/
theorem c2_amended_translation_witness :
    strContains "duplicate key value violates unique constraint users_email_key"
      "email" = true ∧
    sign_up ⟨[]⟩ user1
      (.error "duplicate key value violates unique constraint users_email_key") =
      .error ⟨400, "User with email " ++ user1.email.value ++
        " already exists"⟩ :=
  ⟨by decide,
    (c2_amended_translation ⟨[]⟩ user1
      "duplicate key value violates unique constraint users_email_key"
      rfl rfl).1 (by decide)⟩

/-- Modelled from the spec: the identifier lookup step of login_user
(AuthUseCases, not under src).  The spec says the user is looked up by email or
username with the priority left open; here email is tried first. -/
def lookupUser (s : Store) (identifier : String) : Except Err (Option User) :=
  match get_by_email s ⟨identifier⟩ with
  | .error e => .error e
  | .ok (some u) => .ok (some u)
  | .ok none => get_by_username s identifier

/-- Modelled from the spec: AuthUseCases.login_user (application layer, not
under src).  Looks up the user by identifier; fails with the one generic
invalid-credentials ValueError when the user is not found, when it is inactive,
and when the password hash does not verify; on success returns the user and a
freshly issued token pair. -/
def login_user (s : Store) (verify : String → String → Bool)
    (issueA issueR : String → String) (identifier secret : String) :
    Except Err (User × String × String) :=
  match lookupUser s identifier with
  | .error e => .error e
  | .ok none => .error (.valueErr "Invalid credentials")
  | .ok (some u) =>
    if u.is_active = false then .error (.valueErr "Invalid credentials")
    else if verify secret u.hashed_password = false then
      .error (.valueErr "Invalid credentials")
    else .ok (u, issueA u.id.value, issueR u.id.value)

/-- presentation.api.auth_router.login: runs login_user; a ValueError is
surfaced as HTTP 401 with its detail, any other exception as the generic HTTP
500 login error. -/
def login (s : Store) (verify : String → String → Bool)
    (issueA issueR : String → String) (identifier secret : String) :
    Except HTTPError (User × String × String) :=
  match login_user s verify issueA issueR identifier secret with
  | .ok r => .ok r
  | .error (.valueErr m) => .error ⟨401, m⟩
  | .error _ => .error ⟨500, "Internal server error during login"⟩

/-- C4: the three login failure modes — identifier not found, user inactive,
and password verification false — all surface to the caller as the identical
HTTP 401 invalid-credentials error, indistinguishable in type, status and
detail. -/
theorem c4_login_single_generic_error (s : Store)
    (verify : String → String → Bool) (issueA issueR : String → String)
    (identifier secret : String) :
    (lookupUser s identifier = .ok none →
      login s verify issueA issueR identifier secret =
        .error ⟨401, "Invalid credentials"⟩) ∧
    (∀ u, lookupUser s identifier = .ok (some u) → u.is_active = false →
      login s verify issueA issueR identifier secret =
        .error ⟨401, "Invalid credentials"⟩) ∧
    (∀ u, lookupUser s identifier = .ok (some u) → u.is_active = true →
      verify secret u.hashed_password = false →
      login s verify issueA issueR identifier secret =
        .error ⟨401, "Invalid credentials"⟩) := by
  refine ⟨?_, ?_, ?_⟩
  · intro h
    simp [login, login_user, h]
  · intro u h hact
    simp [login, login_user, h, hact]
  · intro u h hact hv
    simp [login, login_user, h, hact, hv]

/-- Witness for C4: a login against the empty store (identifier not found)
fails with the generic invalid-credentials error. -/
theorem c4_login_single_generic_error_witness :
    lookupUser ⟨[]⟩ "alice" = .ok none ∧
    login ⟨[]⟩ (fun _ _ => true) (fun x => x) (fun x => x) "alice" "pw" =
      .error ⟨401, "Invalid credentials"⟩ :=
  ⟨rfl,
    (c4_login_single_generic_error ⟨[]⟩ (fun _ _ => true) (fun x => x)
      (fun x => x) "alice" "pw").1 rfl⟩

end AuthCore
